import Mathlib

/-!
Shallow embedding of `src/modules/core/src/effects/collide/collide-effect.ts`
(class `CollideEffect`) and proofs about its per-frame behavior.

Modelling conventions:
* JavaScript object references (bounds arrays returned by `layer.getBounds()`)
  are modelled by identifiers of type `Option Nat`: `none` is the JS `null`
  (for which `null === null` holds), and `some k` is a reference id, with
  distinct allocations receiving distinct ids, so `===` on references is
  equality of the ids.
* Object identity of the per-frame `RenderInfo` literal is modelled with a
  freshness counter `nextRid` kept in the state: every `RenderInfo` allocated
  by `preRender` gets the current counter value as its `rid` and the counter
  is incremented, so `renderInfo === oldRenderInfo` is `rid` equality.
* `Viewport` is an external entity compared by value (`Viewport.equals`); it
  is modelled as an abstract value with decidable equality (`Nat`).
* GPU textures only matter up to which object is exposed, so a texture is a
  tag: the 1x1 dummy texture or the collide-pass mask texture.
* Canvas and framebuffer dimensions are JS numbers; they are modelled as
  rationals so that the division `canvas.width / DOWNSCALE` is exact.
* `collidePass.render(...)` (class `CollidePass`, whose source file
  `passes/collide-pass.ts` is not part of the analyzed sources) is observed
  only through the fact that it was invoked and with which layers/viewports;
  a frame therefore returns an `Option RenderCall` recording the invocation.
* `_debug()` only reads state and draws to a DOM canvas; a frame returns a
  flag recording whether it was executed.
-/

namespace CollideSpec

/-- An entry of `layer.props.extensions`; only `constructor.extensionName`
is consulted by the code. -/
structure Extension where
  extensionName : String
deriving DecidableEq

/-- The part of a deck.gl layer consulted by `CollideEffect.preRender`:
`props.visible`, `props.extensions`, `props.collideEnabled`, and the
reference returned by `getBounds()` this frame (`none` models `null`). -/
structure Layer where
  visible : Bool
  extensions : List Extension
  collideEnabled : Bool
  bounds : Option Nat
deriving DecidableEq

/-- A viewport compared by value via `Viewport.equals`; abstracted to a value
with decidable equality. -/
abbrev Viewport := Nat

/-- A GPU texture object, up to identity: the 1x1 dummy texture created in
`preRender`, or the collide pass's mask texture. -/
inductive TexRef
  | dummyTex
  | collideTex
deriving DecidableEq

/-- The collide pass's framebuffer, observed through its dimensions
(set by `fbo.resize`). -/
structure CollidePassFbo where
  width : ℚ
  height : ℚ
deriving DecidableEq

/-- The `RenderInfo` record built each frame: `{layers, layerBounds}` plus
the identity tag `rid` (see module docstring). -/
structure RenderInfo where
  rid : Nat
  layers : List Layer
  layerBounds : List (Option Nat)
deriving DecidableEq

/-- The mutable fields of class `CollideEffect`, plus the freshness counter
`nextRid` used to model object identity of `RenderInfo` literals. -/
structure EffectState where
  dummyCollideMap : Option TexRef
  programManager : Bool
  oldRenderInfo : Option RenderInfo
  haveCollideLayers : Bool
  collidePass : Option CollidePassFbo
  collideMap : Option TexRef
  lastViewport : Option Viewport
  nextRid : Nat
deriving DecidableEq

/-- The field initializers of class `CollideEffect`: every resource field
undefined/null, `haveCollideLayers = false`. -/
def initState : EffectState :=
  { dummyCollideMap := none
    programManager := false
    oldRenderInfo := none
    haveCollideLayers := false
    collidePass := none
    collideMap := none
    lastViewport := none
    nextRid := 0 }

/-- The per-frame input consumed by `preRender`: the scene's layers, the
viewports (only `viewports[0]` is consulted), and the canvas dimensions.
`layerFilter`, `onViewportActive` and `views` are opaque pass-through values
that never affect this effect's state and are omitted. -/
structure PreInput where
  layers : List Layer
  viewports : List Viewport
  canvasWidth : ℚ
  canvasHeight : ℚ
deriving DecidableEq

/-- Record of one invocation of `collidePass.render`, keeping the arguments
that depend on this effect's logic: the layer list and the viewport list
(`viewport ? [viewport] : []`). -/
structure RenderCall where
  layers : List Layer
  viewports : List Viewport
deriving DecidableEq

/-- Result of one `preRender` call: the updated state, whether (and with
what) `collidePass.render` was invoked, and whether `_debug()` ran. -/
structure FrameResult where
  state : EffectState
  renderCall : Option RenderCall
  debugRan : Bool
deriving DecidableEq

/-- `const DOWNSCALE = 2`. -/
def DOWNSCALE : ℚ := 2

/-- The filter predicate of `preRender`:
`visible && extensions.find(e => e.constructor.extensionName === 'CollideExtension') && collideEnabled`. -/
def collideFilter (l : Layer) : Bool :=
  l.visible &&
    (l.extensions.find? (fun e => e.extensionName == "CollideExtension")).isSome &&
    l.collideEnabled

/-- `layers.filter(...)` with the collide filter. -/
def collideLayersOf (layers : List Layer) : List Layer :=
  layers.filter collideFilter

/-- The `renderInfo` object literal built on a frame processed by state `s`:
`{layerBounds: collideLayers.map(l => l.getBounds()), layers: collideLayers}`,
tagged with the fresh identity `s.nextRid`. -/
def frameRenderInfo (s : EffectState) (inp : PreInput) : RenderInfo :=
  { rid := s.nextRid
    layers := collideLayersOf inp.layers
    layerBounds := (collideLayersOf inp.layers).map (fun l => l.bounds) }

/-- `renderInfo.layerBounds.some((b, i) => b !== oldRenderInfo.layerBounds[i])`:
an out-of-range index yields JS `undefined`, which is `!==` any in-range
element, hence modelled by `Option.get?` disagreement. -/
def boundsChanged (curr old : List (Option Nat)) : Bool :=
  (List.range curr.length).any (fun i => !(curr.get? i == old.get? i))

/-- The `renderInfoUpdated` expression of `_render`: identity with the old
record, or differing layer counts, or some bounds reference changed. -/
def renderInfoUpdatedB (renderInfo oldRenderInfo : RenderInfo) : Bool :=
  (renderInfo.rid == oldRenderInfo.rid) ||
    (oldRenderInfo.layers.length != renderInfo.layers.length) ||
    boundsChanged renderInfo.layerBounds oldRenderInfo.layerBounds

/-- `lastViewport.equals(viewport)`: value equality, false against JS
`undefined` (an absent viewport). -/
def viewportEquals (lv : Viewport) (viewport : Option Viewport) : Bool :=
  match viewport with
  | some v => lv == v
  | none => false

/-- `!this.lastViewport || !this.lastViewport.equals(viewport)`. -/
def viewportChangedB (lastViewport viewport : Option Viewport) : Bool :=
  match lastViewport with
  | none => true
  | some lv => !(viewportEquals lv viewport)

/-- Method `_render`: early return when `oldRenderInfo` is null; otherwise
compute `renderInfoUpdated`, unconditionally store the new `renderInfo`, and
invoke `collidePass.render` (recording `lastViewport := viewport`) exactly
when `renderInfoUpdated || viewportChanged`. -/
def renderStep (s : EffectState) (renderInfo : RenderInfo) (viewport : Option Viewport)
    (viewportChanged : Bool) : EffectState × Option RenderCall :=
  match s.oldRenderInfo with
  | none => (s, none)
  | some oldRenderInfo =>
    let renderInfoUpdated := renderInfoUpdatedB renderInfo oldRenderInfo
    let s1 := { s with oldRenderInfo := some renderInfo }
    if renderInfoUpdated || viewportChanged then
      ({ s1 with lastViewport := viewport },
        some { layers := renderInfo.layers
               viewports := match viewport with | some v => [v] | none => [] })
    else
      (s1, none)

/-- Method `preRender`, translated statement by statement: lazily create the
dummy texture; filter the collide layers; on an empty set reset
`haveCollideLayers`/`oldRenderInfo` and return early (no `_render`, no
`_debug`); otherwise lazily provision the program manager and collide pass
(Modelled from the spec for the missing `passes/collide-pass.ts`: a new
pass's framebuffer is created sized to canvas / DOWNSCALE, per section 4.1 of
the design; the size is overwritten by the unconditional `resize` in the same
frame), build the fresh `renderInfo`, adopt it when `oldRenderInfo` is null,
compute `viewportChanged` from `viewports[0]`, resize the framebuffer to
`canvas / DOWNSCALE`, run `_render`, and run `_debug`. -/
def preRender (s0 : EffectState) (inp : PreInput) : FrameResult :=
  let s1 := if s0.dummyCollideMap.isNone then
      { s0 with dummyCollideMap := some TexRef.dummyTex } else s0
  let collideLayers := collideLayersOf inp.layers
  if collideLayers.length = 0 then
    { state := { s1 with haveCollideLayers := false, oldRenderInfo := none }
      renderCall := none
      debugRan := false }
  else
    let s2 := { s1 with haveCollideLayers := true }
    let s3 := if s2.programManager then s2 else { s2 with programManager := true }
    let s4 := if s3.collidePass.isSome then s3 else
      { s3 with
        collidePass := some { width := inp.canvasWidth / DOWNSCALE
                              height := inp.canvasHeight / DOWNSCALE }
        collideMap := some TexRef.collideTex }
    let renderInfo := frameRenderInfo s4 inp
    let s5 := { s4 with nextRid := s4.nextRid + 1 }
    let s6 := if s5.oldRenderInfo.isNone then
      { s5 with oldRenderInfo := some renderInfo } else s5
    let viewport := inp.viewports.head?
    let viewportChanged := viewportChangedB s6.lastViewport viewport
    let s7 := { s6 with collidePass := s6.collidePass.map (fun _ =>
        { width := inp.canvasWidth / DOWNSCALE
          height := inp.canvasHeight / DOWNSCALE }) }
    let res := renderStep s7 renderInfo viewport viewportChanged
    { state := res.1, renderCall := res.2, debugRan := true }

/-- Method `getModuleParameters`:
`{collideMap: haveCollideLayers ? collideMap : dummyCollideMap, haveCollideLayers}`. -/
structure ModuleParameters where
  collideMap : Option TexRef
  haveCollideLayers : Bool
deriving DecidableEq

/-- Method `getModuleParameters` of `CollideEffect`. -/
def getModuleParameters (s : EffectState) : ModuleParameters :=
  { collideMap := if s.haveCollideLayers then s.collideMap else s.dummyCollideMap
    haveCollideLayers := s.haveCollideLayers }

/-- Method `cleanup`: delete the dummy texture if present; unregister the
shader module and null the program manager only when
`haveCollideLayers && programManager`; delete the collide pass and its map if
present; reset `lastViewport`, `haveCollideLayers`, `oldRenderInfo`. -/
def cleanup (s : EffectState) : EffectState :=
  let s1 := if s.dummyCollideMap.isSome then { s with dummyCollideMap := none } else s
  let s2 := if s1.haveCollideLayers && s1.programManager then
      { s1 with programManager := false } else s1
  let s3 := if s2.collidePass.isSome then
      { s2 with collidePass := none, collideMap := none } else s2
  { s3 with lastViewport := none, haveCollideLayers := false, oldRenderInfo := none }

/-- States reachable from the freshly constructed effect by any interleaving
of `preRender` frames and `cleanup` calls. -/
inductive Reachable : EffectState → Prop
  | init : Reachable initState
  | pre (s : EffectState) (inp : PreInput) : Reachable s → Reachable (preRender s inp).state
  | clean (s : EffectState) : Reachable s → Reachable (cleanup s)

/-! ### Closed forms of one `preRender` frame -/

/-- Closed form of a frame whose filtered collide-layer set is empty: the
dummy texture exists afterwards, `haveCollideLayers` and `oldRenderInfo` are
reset, everything else (in particular `lastViewport` and the collide pass) is
untouched, no render call, no debug. -/
def emptyFrame (s : EffectState) : FrameResult :=
  { state := { s with
      dummyCollideMap := some (s.dummyCollideMap.getD TexRef.dummyTex)
      haveCollideLayers := false
      oldRenderInfo := none }
    renderCall := none
    debugRan := false }

/-- Closed form of a frame whose filtered collide-layer set is non-empty. -/
def nonemptyFrame (s : EffectState) (inp : PreInput) : FrameResult :=
  let renderInfo := frameRenderInfo s inp
  let oldRI := s.oldRenderInfo.getD renderInfo
  let viewport := inp.viewports.head?
  let doRender := renderInfoUpdatedB renderInfo oldRI || viewportChangedB s.lastViewport viewport
  { state :=
      { dummyCollideMap := some (s.dummyCollideMap.getD TexRef.dummyTex)
        programManager := true
        oldRenderInfo := some renderInfo
        haveCollideLayers := true
        collidePass := some { width := inp.canvasWidth / DOWNSCALE
                              height := inp.canvasHeight / DOWNSCALE }
        collideMap := if s.collidePass.isSome then s.collideMap else some TexRef.collideTex
        lastViewport := if doRender then viewport else s.lastViewport
        nextRid := s.nextRid + 1 }
    renderCall :=
      if doRender then
        some { layers := renderInfo.layers
               viewports := match viewport with | some v => [v] | none => [] }
      else none
    debugRan := true }

/-- Unfolding lemma for `renderStep` when the stored render info is present. -/
theorem renderStep_some (s : EffectState) (ri' : RenderInfo) (vp : Option Viewport)
    (vc : Bool) (ri : RenderInfo) (h : s.oldRenderInfo = some ri) :
    renderStep s ri' vp vc =
      if renderInfoUpdatedB ri' ri || vc then
        ({ s with oldRenderInfo := some ri', lastViewport := vp },
          some { layers := ri'.layers
                 viewports := match vp with | some v => [v] | none => [] })
      else ({ s with oldRenderInfo := some ri' }, none) := by
  simp [renderStep, h]

set_option maxHeartbeats 2000000 in
theorem preRender_eq (s : EffectState) (inp : PreInput) :
    preRender s inp =
      if collideLayersOf inp.layers = [] then emptyFrame s else nonemptyFrame s inp := by
  by_cases hE : collideLayersOf inp.layers = []
  · simp only [hE, if_pos]
    unfold preRender emptyFrame
    rcases hdum : s.dummyCollideMap with _ | t <;> simp [hE, hdum]
  · simp only [hE, if_neg, if_false]
    have hlen : ¬ (collideLayersOf inp.layers).length = 0 := by
      simpa [List.length_eq_zero] using hE
    unfold preRender nonemptyFrame
    simp only [hlen, if_false, if_neg]
    rcases hdum : s.dummyCollideMap with _ | t <;>
    rcases hold : s.oldRenderInfo with _ | ri <;>
    by_cases hpm : s.programManager <;>
    rcases hcp : s.collidePass with _ | fbo <;>
    simp [hdum, hold, hpm, hcp, frameRenderInfo, renderStep, renderInfoUpdatedB,
      viewportChangedB, apply_ite] <;>
    split <;> simp_all <;> intro h1 h2 h3 <;> simp_all

/-- Closed form of `cleanup`: everything is reset except that the program
manager survives when `haveCollideLayers` is false at teardown time, and the
collide map is only cleared together with the collide pass. -/
theorem cleanup_eq (s : EffectState) :
    cleanup s =
      { dummyCollideMap := none
        programManager := s.programManager && !s.haveCollideLayers
        oldRenderInfo := none
        haveCollideLayers := false
        collidePass := none
        collideMap := if s.collidePass.isSome then none else s.collideMap
        lastViewport := none
        nextRid := s.nextRid } := by
  unfold cleanup
  rcases hdum : s.dummyCollideMap with _ | t <;>
  rcases hcp : s.collidePass with _ | fbo <;>
  by_cases hpm : s.programManager <;>
  by_cases hcl : s.haveCollideLayers <;>
  simp [hdum, hcp, hpm, hcl]

/-! ### Invariants of reachable states -/

/-- In every reachable state the dummy texture slot holds nothing or the 1x1
dummy texture. -/
theorem reachable_dummy (s : EffectState) (h : Reachable s) :
    s.dummyCollideMap = none ∨ s.dummyCollideMap = some TexRef.dummyTex := by
  induction h with
  | init => exact Or.inl rfl
  | pre s inp hr ih =>
    rw [preRender_eq]
    by_cases hE : collideLayersOf inp.layers = [] <;>
    rcases ih with hd | hd <;>
    simp [hE, emptyFrame, nonemptyFrame, hd]
  | clean s hr ih => simp [cleanup_eq]

/-- In every reachable state the collide map texture exists exactly when the
collide pass does, and is then the pass's mask texture. -/
theorem reachable_collideMap (s : EffectState) (h : Reachable s) :
    s.collideMap = (if s.collidePass.isSome then some TexRef.collideTex else none) := by
  induction h with
  | init => rfl
  | pre s inp hr ih =>
    rw [preRender_eq]
    by_cases hE : collideLayersOf inp.layers = [] <;>
    rcases hcp : s.collidePass with _ | fbo <;>
    simp_all [emptyFrame, nonemptyFrame]
  | clean s hr ih =>
    rcases hcp : s.collidePass with _ | fbo <;> simp_all [cleanup_eq]

/-- In every reachable state any stored render info was allocated strictly
before the current freshness counter, so a freshly built `RenderInfo` is
never identical to the stored one. -/
theorem reachable_rid (s : EffectState) (h : Reachable s) :
    ∀ ri, s.oldRenderInfo = some ri → ri.rid < s.nextRid := by
  induction h with
  | init => intro ri h; exact absurd h (by simp [initState])
  | pre s inp hr ih =>
    intro ri h
    rw [preRender_eq] at h ⊢
    by_cases hE : collideLayersOf inp.layers = []
    · simp [hE, emptyFrame] at h
    · simp [hE, nonemptyFrame] at h ⊢
      simp [← h, frameRenderInfo]
  | clean s hr ih =>
    intro ri h
    exact absurd h (by simp [cleanup_eq])

/-! ### Small helper lemmas -/

/-- Comparing a bounds list against itself reports no change. -/
theorem boundsChanged_self (l : List (Option Nat)) : boundsChanged l l = false := by
  simp [boundsChanged]

/-- A reference mismatch at an in-range index is reported as a change. -/
theorem boundsChanged_true_of_ne {curr old : List (Option Nat)} {i : Nat}
    (hi : i < curr.length) (hne : curr.get? i ≠ old.get? i) :
    boundsChanged curr old = true := by
  simp only [boundsChanged, List.any_eq_true]
  exact ⟨i, List.mem_range.mpr hi, by simpa [List.get?_eq_getElem?] using hne⟩

/-- The layer list passed to `collidePass.render` this frame (empty when the
pass was not invoked). -/
def renderedLayers (fr : FrameResult) : List Layer :=
  match fr.renderCall with
  | some rc => rc.layers
  | none => []

/-- The three conditions of the collide-layer filter, as a proposition. -/
def collideEligible (l : Layer) : Prop :=
  l.visible = true ∧
    (l.extensions.find? (fun e => e.extensionName == "CollideExtension")).isSome = true ∧
    l.collideEnabled = true

instance (l : Layer) : Decidable (collideEligible l) := by
  unfold collideEligible; infer_instance

/-- The filter predicate holds exactly when the three conditions hold. -/
theorem collideFilter_eq_true_iff (l : Layer) :
    collideFilter l = true ↔ collideEligible l := by
  simp [collideFilter, collideEligible, Bool.and_eq_true, and_assoc]

/-! ### Sample data for witnesses and counterexamples -/

/-- An extension descriptor whose `extensionName` is `CollideExtension`. -/
def sampleExt : Extension := { extensionName := "CollideExtension" }

/-- A visible, collide-enabled layer carrying the collide extension. -/
def sampleLayer : Layer :=
  { visible := true, extensions := [sampleExt], collideEnabled := true, bounds := some 0 }

/-- A frame input with one collide layer and one viewport. -/
def frameA : PreInput :=
  { layers := [sampleLayer], viewports := [0], canvasWidth := 2, canvasHeight := 2 }

/-- A frame input with no layers at all (empty collide set). -/
def frameEmptyA : PreInput :=
  { layers := [], viewports := [0], canvasWidth := 2, canvasHeight := 2 }

/-! ### Claims -/

/-- C1, counterexample: the claim asserts the exposed `collideMap` parameter
is never null in every reachable state, including before the first
`preRender` frame; but in the initial state (which is reachable) both
branches of `getModuleParameters` are undefined, so the exposed parameter is
null. -/
theorem C1_counterexample :
    Reachable initState ∧ (getModuleParameters initState).collideMap = none :=
  ⟨Reachable.init, rfl⟩

/-- C1, amended: in every state reached by running at least one `preRender`
frame (on any reachable predecessor), the exposed `collideMap` parameter is
non-null: the real mask texture when `haveCollideLayers` is true and the 1x1
dummy texture otherwise. In the initial state and immediately after
`cleanup`, before the next `preRender`, it is null. -/
theorem C1_amended_exposed_mask (s : EffectState) (inp : PreInput) (hreach : Reachable s) :
    (getModuleParameters (preRender s inp).state).collideMap =
      some (if (preRender s inp).state.haveCollideLayers then TexRef.collideTex
            else TexRef.dummyTex) := by
  rw [preRender_eq]
  by_cases hE : collideLayersOf inp.layers = []
  · rcases reachable_dummy s hreach with hd | hd <;>
    simp [hE, emptyFrame, getModuleParameters, hd]
  · have hcm := reachable_collideMap s hreach
    rcases hcp : s.collidePass with _ | fbo <;>
    simp_all [hE, nonemptyFrame, getModuleParameters]

theorem C1_amended_witness :
    (getModuleParameters (preRender initState frameEmptyA).state).collideMap =
      some (if (preRender initState frameEmptyA).state.haveCollideLayers then TexRef.collideTex
            else TexRef.dummyTex) :=
  C1_amended_exposed_mask _ _ Reachable.init

/-- C5: on every frame whose filtered collide-layer set is empty, regardless
of prior state, `haveCollideLayers` becomes false, `oldRenderInfo` becomes
null, the exposed mask is the dummy texture, and `lastViewport` is left
unchanged. -/
theorem C5_empty_frame_resets (s : EffectState) (inp : PreInput)
    (hreach : Reachable s) (h : collideLayersOf inp.layers = []) :
    (preRender s inp).state.haveCollideLayers = false ∧
    (preRender s inp).state.oldRenderInfo = none ∧
    (preRender s inp).state.lastViewport = s.lastViewport ∧
    (getModuleParameters (preRender s inp).state).collideMap = some TexRef.dummyTex := by
  rw [preRender_eq]
  rcases reachable_dummy s hreach with hd | hd <;>
  simp [h, emptyFrame, getModuleParameters, hd]

theorem C5_witness :
    (preRender initState frameEmptyA).state.haveCollideLayers = false ∧
    (preRender initState frameEmptyA).state.oldRenderInfo = none ∧
    (preRender initState frameEmptyA).state.lastViewport = initState.lastViewport ∧
    (getModuleParameters (preRender initState frameEmptyA).state).collideMap =
      some TexRef.dummyTex :=
  C5_empty_frame_resets _ _ Reachable.init rfl

/-- C6, counterexample: the claim asserts the collide pass framebuffer is
resized to `canvas / 2` on every frame on which it exists; but a frame whose
filtered collide-layer set is empty returns before the resize, so after a
(800, 600)-canvas collide frame followed by an empty-set (1600, 1200)-canvas
frame the still-existing framebuffer retains dimensions `(800/2, 600/2)`
instead of the claimed `(1600/2, 1200/2)`. -/
theorem C6_counterexample :
    (preRender (preRender initState
        { layers := [sampleLayer], viewports := [0],
          canvasWidth := 800, canvasHeight := 600 }).state
        { layers := [], viewports := [0],
          canvasWidth := 1600, canvasHeight := 1200 }).state.collidePass =
      some { width := (800 : ℚ) / DOWNSCALE, height := (600 : ℚ) / DOWNSCALE } ∧
    ((800 : ℚ) / DOWNSCALE, (600 : ℚ) / DOWNSCALE) ≠
      ((1600 : ℚ) / DOWNSCALE, (1200 : ℚ) / DOWNSCALE) := by
  refine ⟨rfl, ?_⟩
  intro h
  have h1 : (800 : ℚ) / DOWNSCALE = (1600 : ℚ) / DOWNSCALE := congrArg Prod.fst h
  norm_num [DOWNSCALE] at h1

/-- C6, amended: on every frame whose filtered collide-layer set is
non-empty, the collide pass framebuffer is resized to
`(canvas.width / 2, canvas.height / 2)`, even when unchanged and whether or
not a content render occurs; on frames with an empty set the framebuffer (if
any) keeps its previous dimensions. -/
theorem C6_amended_resize (s : EffectState) (inp : PreInput) :
    (preRender s inp).state.collidePass =
      if collideLayersOf inp.layers = [] then s.collidePass
      else some { width := inp.canvasWidth / DOWNSCALE
                  height := inp.canvasHeight / DOWNSCALE } := by
  rw [preRender_eq]
  by_cases hE : collideLayersOf inp.layers = [] <;> simp [hE, emptyFrame, nonemptyFrame]

/-- C7, counterexample: the claim asserts that `cleanup` resets every cached
field (including the program-manager registration) from any reachable state;
but from the reachable state produced by a collide frame followed by an
empty-set frame, `haveCollideLayers` is false, so `cleanup` skips the
program-manager branch and leaves it registered, unlike the initial state. -/
theorem C7_counterexample :
    Reachable (preRender (preRender initState frameA).state frameEmptyA).state ∧
    (cleanup (preRender (preRender initState frameA).state frameEmptyA).state).programManager
      = true ∧
    initState.programManager = false :=
  ⟨Reachable.pre _ _ (Reachable.pre _ _ Reachable.init), rfl, rfl⟩

/-- C7, amended: `cleanup` is idempotent (a second call is a no-op, not an
error), and from any reachable state it resets the dummy mask, collide pass,
collide map, `lastViewport`, `haveCollideLayers` and `oldRenderInfo` to their
initial values; the program-manager registration is cleared only when
`haveCollideLayers` is true at teardown time, and otherwise retains its
value. -/
theorem C7_amended_cleanup (s : EffectState) (hreach : Reachable s) :
    cleanup (cleanup s) = cleanup s ∧
    (cleanup s).dummyCollideMap = none ∧
    (cleanup s).collidePass = none ∧
    (cleanup s).collideMap = none ∧
    (cleanup s).lastViewport = none ∧
    (cleanup s).haveCollideLayers = false ∧
    (cleanup s).oldRenderInfo = none ∧
    (cleanup s).programManager = (s.programManager && !s.haveCollideLayers) := by
  have hcm := reachable_collideMap s hreach
  rcases hcp : s.collidePass with _ | fbo <;> simp_all [cleanup_eq]

theorem C7_amended_witness :
    cleanup (cleanup initState) = cleanup initState ∧
    (cleanup initState).dummyCollideMap = none ∧
    (cleanup initState).collidePass = none ∧
    (cleanup initState).collideMap = none ∧
    (cleanup initState).lastViewport = none ∧
    (cleanup initState).haveCollideLayers = false ∧
    (cleanup initState).oldRenderInfo = none ∧
    (cleanup initState).programManager =
      (initState.programManager && !initState.haveCollideLayers) :=
  C7_amended_cleanup _ Reachable.init

/-- C8, counterexample: the claim asserts `_debug` runs after every
`preRender` invocation, in particular on frames with an empty filtered
collide-layer set; but an empty-set frame returns early, before `_debug`. -/
theorem C8_counterexample :
    (preRender initState frameEmptyA).debugRan = false := rfl

/-- C8, amended: `_debug` is executed on exactly the `preRender` invocations
whose filtered collide-layer set is non-empty, independent of whether a
re-render occurred on that frame; on empty-set frames `preRender` returns
early and `_debug` does not run. -/
theorem C8_amended_debug (s : EffectState) (inp : PreInput) :
    (preRender s inp).debugRan = !(collideLayersOf inp.layers).isEmpty := by
  rw [preRender_eq]
  by_cases hE : collideLayersOf inp.layers = [] <;>
  simp [hE, emptyFrame, nonemptyFrame, List.isEmpty_iff]

/-- A frame input identical to `frameA` except for the viewport value. -/
def frameB : PreInput :=
  { layers := [sampleLayer], viewports := [1], canvasWidth := 2, canvasHeight := 2 }

/-- A layer failing the filter: it carries the collide extension and is
collide-enabled, but is not visible. -/
def hiddenLayer : Layer :=
  { visible := false, extensions := [sampleExt], collideEnabled := true, bounds := some 1 }

/-- A frame input mixing a filtered-out layer with a collide layer. -/
def frameC : PreInput :=
  { layers := [hiddenLayer, sampleLayer], viewports := [0], canvasWidth := 2, canvasHeight := 2 }

/-- C2: starting from the initial state, two consecutive `preRender` calls
with byte-identical inputs (same layers, same bounds references, same
viewport value, at least one collide layer, at least one viewport) invoke the
collide render pass exactly once: on the first call, and not on the second. -/
theorem C2_render_once_on_identical_frames (inp : PreInput)
    (h1 : collideLayersOf inp.layers ≠ [])
    (h2 : inp.viewports ≠ []) :
    (preRender initState inp).renderCall.isSome = true ∧
    (preRender (preRender initState inp).state inp).renderCall = none := by
  constructor
  · rw [preRender_eq]
    simp [h1, nonemptyFrame, initState, renderInfoUpdatedB]
  · rcases hvp : inp.viewports with _ | ⟨v, vs⟩
    · exact absurd hvp h2
    · simp only [preRender_eq]
      simp [h1, nonemptyFrame, initState, frameRenderInfo, renderInfoUpdatedB,
        viewportChangedB, viewportEquals, boundsChanged_self, hvp]

theorem C2_witness :
    (preRender initState frameA).renderCall.isSome = true ∧
    (preRender (preRender initState frameA).state frameA).renderCall = none :=
  C2_render_once_on_identical_frames frameA (by decide) (by decide)

/-- C3: on a frame with a non-empty collide-layer set, with a previous
`RenderInfo` of the same layer count on record, the render pass is invoked
both when all bounds references are unchanged but the current viewport
differs by value from the last rendered one, and when the viewport is
value-equal but some bounds reference changed at an index. -/
theorem C3_change_detection_conservatism (s : EffectState) (inp : PreInput)
    (prev : RenderInfo) (lv v : Viewport)
    (hne : collideLayersOf inp.layers ≠ [])
    (hold : s.oldRenderInfo = some prev)
    (hvp : inp.viewports.head? = some v)
    (hlast : s.lastViewport = some lv)
    (hcase :
      (prev.layers.length = (frameRenderInfo s inp).layers.length ∧
        boundsChanged (frameRenderInfo s inp).layerBounds prev.layerBounds = false ∧
        lv ≠ v) ∨
      (lv = v ∧ prev.layers.length = (frameRenderInfo s inp).layers.length ∧
        ∃ i, i < (frameRenderInfo s inp).layerBounds.length ∧
          (frameRenderInfo s inp).layerBounds.get? i ≠ prev.layerBounds.get? i)) :
    (preRender s inp).renderCall.isSome = true := by
  rw [preRender_eq]
  rcases hcase with ⟨hlen, hb, hnev⟩ | ⟨hveq, hlen, i, hi, hnb⟩
  · have hvc : viewportChangedB s.lastViewport inp.viewports.head? = true := by
      simp [viewportChangedB, hlast, hvp, viewportEquals, hnev]
    simp [hne, nonemptyFrame, hold, hvc]
  · have hbc : boundsChanged (frameRenderInfo s inp).layerBounds prev.layerBounds = true :=
      boundsChanged_true_of_ne hi hnb
    simp [hne, nonemptyFrame, hold, renderInfoUpdatedB, hbc]

theorem C3_witness :
    (preRender (preRender initState frameA).state frameB).renderCall.isSome = true :=
  C3_change_detection_conservatism _ _ (frameRenderInfo initState frameA) 0 1
    (by decide) (by decide) (by decide) (by decide)
    (Or.inl ⟨by decide, by decide, by decide⟩)

/-- C4: a frame whose filtered collide-layer set is non-empty while the
previous frame's set was empty (or while no frame was processed yet)
unconditionally invokes the render pass, regardless of viewport or bounds. -/
theorem C4_first_appearance_forces_render (s : EffectState) (i1 i2 : PreInput)
    (h1 : collideLayersOf i1.layers = [])
    (h2 : collideLayersOf i2.layers ≠ []) :
    (preRender initState i2).renderCall.isSome = true ∧
    (preRender (preRender s i1).state i2).renderCall.isSome = true := by
  constructor
  · rw [preRender_eq]
    simp [h2, nonemptyFrame, initState, renderInfoUpdatedB]
  · simp only [preRender_eq]
    simp [h1, h2, emptyFrame, nonemptyFrame, renderInfoUpdatedB]

theorem C4_witness :
    (preRender initState frameA).renderCall.isSome = true ∧
    (preRender (preRender initState frameEmptyA).state frameA).renderCall.isSome = true :=
  C4_first_appearance_forces_render initState frameEmptyA frameA rfl (by decide)

/-- C9: on a frame with a non-empty collide-layer set on which the change
detector finds nothing changed (same layer count, same bounds references,
value-equal viewport), the render pass is skipped but `oldRenderInfo` is
still replaced by the `RenderInfo` object built this frame. -/
theorem C9_noop_frame_updates_renderInfo (s : EffectState) (inp : PreInput)
    (prev : RenderInfo) (v : Viewport)
    (hreach : Reachable s)
    (hne : collideLayersOf inp.layers ≠ [])
    (hold : s.oldRenderInfo = some prev)
    (hlen : prev.layers.length = (frameRenderInfo s inp).layers.length)
    (hb : boundsChanged (frameRenderInfo s inp).layerBounds prev.layerBounds = false)
    (hvp : inp.viewports.head? = some v)
    (hlast : s.lastViewport = some v) :
    (preRender s inp).renderCall = none ∧
    (preRender s inp).state.oldRenderInfo = some (frameRenderInfo s inp) := by
  have hrid := reachable_rid s hreach prev hold
  have hridne : (frameRenderInfo s inp).rid ≠ prev.rid := by
    simp only [frameRenderInfo]
    omega
  have hupd : renderInfoUpdatedB (frameRenderInfo s inp) prev = false := by
    simp [renderInfoUpdatedB, hridne, hlen, hb]
  have hvc : viewportChangedB s.lastViewport inp.viewports.head? = false := by
    simp [viewportChangedB, hlast, hvp, viewportEquals]
  rw [preRender_eq]
  simp [hne, nonemptyFrame, hold, hupd, hvc]

theorem C9_witness :
    (preRender (preRender initState frameA).state frameA).renderCall = none ∧
    (preRender (preRender initState frameA).state frameA).state.oldRenderInfo =
      some (frameRenderInfo (preRender initState frameA).state frameA) :=
  C9_noop_frame_updates_renderInfo _ _ (frameRenderInfo initState frameA) 0
    (Reachable.pre _ _ Reachable.init) (by decide) (by decide) (by decide) (by decide)
    (by decide) (by decide)

/-- The layer list of a recorded render call is always the filtered
collide-layer list of that frame. -/
theorem renderCall_layers (s : EffectState) (inp : PreInput) (rc : RenderCall)
    (h : (preRender s inp).renderCall = some rc) :
    rc.layers = collideLayersOf inp.layers := by
  rw [preRender_eq] at h
  by_cases hE : collideLayersOf inp.layers = []
  · simp [hE, emptyFrame] at h
  · simp only [hE, if_neg, not_false_iff, nonemptyFrame] at h
    split at h
    · cases h
      rfl
    · cases h

/-- C10: a layer enters the collide-layer set only when it is visible,
carries an extension named `CollideExtension`, and has `collideEnabled`;
a layer failing any condition is never passed to the render pass, and cannot
make `haveCollideLayers` true (only a fully eligible layer can). -/
theorem C10_layer_filter (s : EffectState) (inp : PreInput) :
    (∀ l ∈ collideLayersOf inp.layers, collideEligible l) ∧
    (∀ l, ¬ collideEligible l → l ∉ renderedLayers (preRender s inp)) ∧
    ((preRender s inp).state.haveCollideLayers = true →
      ∃ l ∈ inp.layers, collideEligible l) := by
  refine ⟨?_, ?_, ?_⟩
  · intro l hl
    exact (collideFilter_eq_true_iff l).mp (List.of_mem_filter hl)
  · intro l hl hmem
    rcases hrc : (preRender s inp).renderCall with _ | rc
    · simp [renderedLayers, hrc] at hmem
    · simp only [renderedLayers, hrc] at hmem
      rw [renderCall_layers s inp rc hrc] at hmem
      exact hl ((collideFilter_eq_true_iff l).mp (List.of_mem_filter hmem))
  · intro hcl
    rw [preRender_eq] at hcl
    by_cases hE : collideLayersOf inp.layers = []
    · simp [hE, emptyFrame] at hcl
    · obtain ⟨l, hl⟩ := List.exists_mem_of_ne_nil _ hE
      exact ⟨l, List.mem_of_mem_filter hl,
        (collideFilter_eq_true_iff l).mp (List.of_mem_filter hl)⟩

theorem C10_witness :
    hiddenLayer ∉ renderedLayers (preRender initState frameC) :=
  (C10_layer_filter initState frameC).2.1 hiddenLayer (by decide)

end CollideSpec
